import Mathlib

/-!
Shallow embedding of the IoTDB MLNode training-task scheduler
(`src/mlnode/iotdb/mlnode/process/task.py`) and the UDF configuration
holder (`src/udf-py/udf/api/customizer/config/udf_configurations.py`).

The scheduler's external collaborators (the trial executor
`ForecastingTrainingTrial`, the optuna search driver, the config-node
coordinator client, the logger, `os.getpid`) are abstracted into an
environment record; the orchestrator and the trial objective are
translated line by line from the source, with the shared mutable
`task_configs` dict and the shared `task_trial_map` registry made
explicit as threaded state and an append-only write log.
-/

namespace IoTDB

/-- A key of the inner dictionary of `task_trial_map`.  The source writes
two different key types into the same shared dict: the string
`'tid_0'` in direct mode (`ForecastingTrainingTask.__init__`) and the raw
integer `trial._trial_id` in tuning mode (`TrainingTrialObjective.__call__`);
Python keeps those as distinct keys, so the embedding keeps the sum. -/
inductive TrialKey where
  | str (s : String)
  | num (n : Nat)
deriving DecidableEq, Repr

/-- The fields of the `task_configs` dict that the code under `src/`
reads or writes: `model_id`, `tuning`, and the per-trial overrides
`trial_id` and `learning_rate` (absent until first assigned). -/
structure TaskConfigs where
  model_id : String
  tuning : Bool
  trial_id : Option String := none
  learning_rate : Option ℚ := none
deriving DecidableEq, Repr

/-- Modelled from the spec: the thrift `TrainingState` enumeration
(`iotdb.thrift.common.ttypes`, not under `src/`); per the spec this core
only ever reports `FINISHED`, and a distinct `FAILED` state exists but is
never reported. -/
inductive TrainingState where
  | PENDING
  | RUNNING
  | FINISHED
  | FAILED
  | DROPPING
deriving DecidableEq, Repr

/-- One write into the shared `task_trial_map`:
(model identifier, inner key, process identifier). -/
def RegWrite : Type := String × TrialKey × Nat

instance : DecidableEq RegWrite := by
  unfold RegWrite
  infer_instance

/-- Modelled from the spec: the external collaborators of the scheduler.
`pid` is `os.getpid()` of the one process running the orchestrator;
`sample` is what `trial.suggest_float` returns for the trial with
sequence number `k`; `trialStart` is `ForecastingTrainingTrial(...).start()`
(repository code not under `src/`), which returns a loss or raises;
`updateModelState` is the coordinator client call, which returns or
raises. -/
structure Env where
  pid : Nat
  sample : Nat → ℚ
  trialStart : TaskConfigs → Except String ℚ
  updateModelState : String → TrainingState → String → Except String Unit

/-- The trial identifier string built by the source:
`'tid_' + str(k)`. -/
def tidString (k : Nat) : String := "tid_" ++ toString k

/-- Result of one `TrainingTrialObjective.__call__`: the `task_configs`
dict after its in-place mutation, the registry writes performed, and the
returned loss (or the propagated exception). -/
structure ObjResult where
  cfg : TaskConfigs
  writes : List RegWrite
  result : Except String ℚ

/-- `TrainingTrialObjective.__call__` for the trial whose internal
sequence number (`trial._trial_id`) is `k`: writes the sampled learning
rate and the trial-id string into the shared configs, registers the
current pid in the registry under the raw integer key `k`, then runs the
trial executor. -/
def objectiveCall (env : Env) (cfg : TaskConfigs) (k : Nat) : ObjResult :=
  let cfg1 : TaskConfigs := { cfg with learning_rate := some (env.sample k) }
  let cfg2 : TaskConfigs := { cfg1 with trial_id := some (tidString k) }
  let w : RegWrite := (cfg2.model_id, TrialKey.num k, env.pid)
  { cfg := cfg2, writes := [w], result := env.trialStart cfg2 }

/-- Accumulated outcome of the search driver's sequential evaluations:
final configs, registry writes in order, the (trial-id string, loss)
pair of every completed evaluation in order, and the first uncaught
exception if one stopped the run. -/
structure TrialsResult where
  cfg : TaskConfigs
  writes : List RegWrite
  evals : List (String × ℚ)
  err : Option String

/-- Modelled from the spec: the search driver (`optuna`
`study.optimize(objective, n_trials)`) invokes the objective once per
iteration, sequentially in this process, assigning consecutive internal
trial sequence numbers starting at `k`; an exception raised by the
objective stops the run and propagates (optuna's default `catch=()`). -/
def runTrials (env : Env) : Nat → Nat → TaskConfigs → TrialsResult
  | 0, _, cfg => ⟨cfg, [], [], none⟩
  | m + 1, k, cfg =>
    let r := objectiveCall env cfg k
    match r.result with
    | Except.error e => ⟨r.cfg, r.writes, [], some e⟩
    | Except.ok loss =>
      let rest := runTrials env m (k + 1) r.cfg
      ⟨rest.cfg, r.writes ++ rest.writes, (tidString k, loss) :: rest.evals, rest.err⟩

/-- Modelled from the spec: `study.best_trial` after a minimization run,
as the (index, value) of the first-seen minimum of the losses — the
driver tracks the best trial by minimum loss, ties broken by first-seen
order since trials run sequentially. -/
def firstMin : List ℚ → Option (Nat × ℚ)
  | [] => none
  | x :: xs =>
    match firstMin xs with
    | none => some (0, x)
    | some (j, v) => if x ≤ v then some (0, x) else some (j + 1, v)

/-- State established by `ForecastingTrainingTask.__init__`: the
(possibly mutated) `task_configs` and the registry writes performed at
construction time. -/
structure InitResult where
  cfg : TaskConfigs
  writes : List RegWrite

/-- `ForecastingTrainingTask.__init__`: stores `model_id` and `tuning`;
in tuning mode only creates the study; in direct mode it already assigns
`trial_id = 'tid_0'` into the configs, constructs the trial, and records
the current pid in the registry under the string key `'tid_0'`. -/
def taskInit (env : Env) (cfg : TaskConfigs) : InitResult :=
  if cfg.tuning then ⟨cfg, []⟩
  else
    let cfg1 : TaskConfigs := { cfg with trial_id := some "tid_0" }
    ⟨cfg1, [(cfg.model_id, TrialKey.str "tid_0", env.pid)]⟩

/-- Observable outcome of one `ForecastingTrainingTask.__call__`:
final configs, registry writes performed during the call, the
coordinator-client invocations made (arguments of each
`update_model_state` call, whether or not it then raised), the
warning-log lines emitted, and the normal/raising outcome. -/
structure CallResult where
  cfg : TaskConfigs
  writes : List RegWrite
  updates : List (String × TrainingState × String)
  warns : List String
  outcome : Except String Unit

/-- `ForecastingTrainingTask.__call__`, with `model_id` and `tuning` the
values stored at construction and `cfg` the configs object as left by
construction.  Tuning mode runs the driver for `n_trials=20`, then
reports `('tid_' + str(best_trial._trial_id))`; direct mode runs the
stored trial, then reports `'tid_0'`.  Any exception is logged once at
warning severity and re-raised. -/
def taskCall (env : Env) (model_id : String) (tuning : Bool)
    (cfg : TaskConfigs) : CallResult :=
  if tuning then
    let tr := runTrials env 20 0 cfg
    match tr.err with
    | some e => ⟨tr.cfg, tr.writes, [], [e], Except.error e⟩
    | none =>
      match firstMin (tr.evals.map Prod.snd) with
      | none =>
        -- `study.best_trial` with no completed trial raises in optuna;
        -- unreachable here since the budget is the positive constant 20.
        ⟨tr.cfg, tr.writes, [], ["no best trial"], Except.error "no best trial"⟩
      | some (j, _) =>
        let u : String × TrainingState × String :=
          (model_id, TrainingState.FINISHED, tidString j)
        match env.updateModelState model_id TrainingState.FINISHED (tidString j) with
        | Except.ok _ => ⟨tr.cfg, tr.writes, [u], [], Except.ok ()⟩
        | Except.error e => ⟨tr.cfg, tr.writes, [u], [e], Except.error e⟩
  else
    match env.trialStart cfg with
    | Except.error e => ⟨cfg, [], [], [e], Except.error e⟩
    | Except.ok _ =>
      let u : String × TrainingState × String :=
        (model_id, TrainingState.FINISHED, "tid_0")
      match env.updateModelState model_id TrainingState.FINISHED "tid_0" with
      | Except.ok _ => ⟨cfg, [], [u], [], Except.ok ()⟩
      | Except.error e => ⟨cfg, [], [u], [e], Except.error e⟩

/-- Construction followed by invocation of one `ForecastingTrainingTask`
on the given initial `task_configs`; registry writes of both phases are
reported together, in order. -/
def fullRun (env : Env) (cfg : TaskConfigs) : CallResult :=
  let ini := taskInit env cfg
  let c := taskCall env cfg.model_id cfg.tuning ini.cfg
  { c with writes := ini.writes ++ c.writes }

end IoTDB

namespace UDF

/-- `UDFException(msg)` from `udf.api.exception.udf_exception`. -/
structure UDFException where
  message : String
deriving DecidableEq, Repr

/-- `UDFConfigurations`: holds `_output_data_type`, which may be unset
(`None`).  The element type of `udf.api.type.type.Type` is not under
`src/`, so the holder is polymorphic in it. -/
structure UDFConfigurations (τ : Type) where
  output_data_type : Option τ

/-- `UDFConfigurations.get_output_data_type`. -/
def get_output_data_type {τ : Type} (c : UDFConfigurations τ) : Option τ :=
  c.output_data_type

/-- `UDFConfigurations.check`: raises
`UDFException("UDF output_data_type is not set.")` when the stored type
is `None`, else returns normally; the method never reassigns the field,
so the configuration object it leaves behind is returned unchanged. -/
def check {τ : Type} (c : UDFConfigurations τ) :
    Except UDFException Unit × UDFConfigurations τ :=
  match c.output_data_type with
  | none => (Except.error ⟨"UDF output_data_type is not set."⟩, c)
  | some _ => (Except.ok (), c)

end UDF

namespace IoTDB

/-- Concrete direct-mode task configs used by the concrete witnesses. -/
def cfgDirect : TaskConfigs := { model_id := "m1", tuning := false }

/-- Concrete tuning-mode task configs used by the concrete witnesses. -/
def cfgTuning : TaskConfigs := { model_id := "m1", tuning := true }

/-- Concrete environment in which every collaborator succeeds. -/
def envOk : Env :=
  { pid := 42
    sample := fun _ => 1 / 100
    trialStart := fun _ => Except.ok 1
    updateModelState := fun _ _ _ => Except.ok () }

/-- Concrete environment in which the trial executor always raises. -/
def envFail : Env :=
  { pid := 42
    sample := fun _ => 1 / 100
    trialStart := fun _ => Except.error "boom"
    updateModelState := fun _ _ _ => Except.ok () }

/-- The tuning-mode run property of claim C1 at `env` and initial configs
`cfg`: the driver performs exactly 20 evaluations, their trial-identifier
strings are `tid_0 .. tid_19` and pairwise distinct, and the single
coordinator invocation carries the model id, `FINISHED`, and the
identifier of the first-seen minimum-loss evaluation. -/
def C1Prop (env : Env) (cfg : TaskConfigs) : Prop :=
  ((runTrials env 20 0 cfg).evals).length = 20 ∧
  ((runTrials env 20 0 cfg).evals).map Prod.fst = (List.range 20).map tidString ∧
  (((runTrials env 20 0 cfg).evals).map Prod.fst).Nodup ∧
  ∃ j v, firstMin (((runTrials env 20 0 cfg).evals).map Prod.snd) = some (j, v) ∧
    (((runTrials env 20 0 cfg).evals).map Prod.snd).get? j = some v ∧
    (∀ x ∈ ((runTrials env 20 0 cfg).evals).map Prod.snd, v ≤ x) ∧
    (∀ i x, i < j →
      (((runTrials env 20 0 cfg).evals).map Prod.snd).get? i = some x → v < x) ∧
    (fullRun env cfg).updates = [(cfg.model_id, TrainingState.FINISHED, tidString j)]

theorem taskCall_warns_outcome (env : Env) (mid : String) (tuning : Bool)
    (cfg : TaskConfigs) :
    (taskCall env mid tuning cfg).warns =
      (match (taskCall env mid tuning cfg).outcome with
        | Except.error e => [e]
        | Except.ok _ => []) := by
  unfold taskCall
  cases tuning with
  | true =>
    simp only [if_true]
    rcases h1 : (runTrials env 20 0 cfg).err with _ | e
    · simp only [h1]
      rcases h2 : firstMin (((runTrials env 20 0 cfg).evals).map Prod.snd) with _ | ⟨j, v⟩
      · simp [h2]
      · simp only [h2]
        rcases h3 : env.updateModelState mid TrainingState.FINISHED (tidString j) with e | u
        · simp [h3]
        · simp [h3]
    · simp [h1]
  | false =>
    simp only [Bool.false_eq_true, if_false]
    rcases h1 : env.trialStart cfg with e | v
    · simp [h1]
    · simp only [h1]
      rcases h2 : env.updateModelState mid TrainingState.FINISHED "tid_0" with e | u
      · simp [h2]
      · simp [h2]

theorem taskCall_updates_finished (env : Env) (mid : String) (tuning : Bool)
    (cfg : TaskConfigs) :
    ((taskCall env mid tuning cfg).updates).all
      (fun u => decide (u.2.1 = TrainingState.FINISHED)) = true := by
  unfold taskCall
  cases tuning with
  | true =>
    simp only [if_true]
    rcases h1 : (runTrials env 20 0 cfg).err with _ | e
    · simp only [h1]
      rcases h2 : firstMin (((runTrials env 20 0 cfg).evals).map Prod.snd) with _ | ⟨j, v⟩
      · simp [h2]
      · simp only [h2]
        rcases h3 : env.updateModelState mid TrainingState.FINISHED (tidString j) with e | u
        · simp [h3]
        · simp [h3]
    · simp [h1]
  | false =>
    simp only [Bool.false_eq_true, if_false]
    rcases h1 : env.trialStart cfg with e | v
    · simp [h1]
    · simp only [h1]
      rcases h2 : env.updateModelState mid TrainingState.FINISHED "tid_0" with e | u
      · simp [h2]
      · simp [h2]

theorem taskCall_writes_tuning (env : Env) (mid : String) (cfg : TaskConfigs) :
    (taskCall env mid true cfg).writes = (runTrials env 20 0 cfg).writes := by
  unfold taskCall
  simp only [if_true]
  rcases h1 : (runTrials env 20 0 cfg).err with _ | e
  · simp only [h1]
    rcases h2 : firstMin (((runTrials env 20 0 cfg).evals).map Prod.snd) with _ | ⟨j, v⟩
    · simp [h2]
    · simp only [h2]
      rcases h3 : env.updateModelState mid TrainingState.FINISHED (tidString j) with e | u
      · simp [h3]
      · simp [h3]
  · simp [h1]

theorem runTrials_pid_all (env : Env) : ∀ (m k : Nat) (cfg : TaskConfigs),
    ((runTrials env m k cfg).writes).all
      (fun w => decide (w.2.2 = env.pid)) = true := by
  intro m
  induction m with
  | zero => intro k cfg; rfl
  | succ m ih =>
    intro k cfg
    simp only [runTrials]
    split
    · simp [objectiveCall]
    · simp [objectiveCall, ih]

theorem firstMin_ne_none (x : ℚ) (xs : List ℚ) : firstMin (x :: xs) ≠ none := by
  simp only [firstMin]
  rcases firstMin xs with _ | ⟨j, v⟩
  · simp
  · by_cases h : x ≤ v <;> simp [h]

theorem firstMin_spec : ∀ (l : List ℚ) (j : Nat) (v : ℚ),
    firstMin l = some (j, v) →
      l.get? j = some v ∧ (∀ x ∈ l, v ≤ x) ∧
        ∀ i x, i < j → l.get? i = some x → v < x := by
  intro l
  induction l with
  | nil => intro j v h; simp [firstMin] at h
  | cons x xs ih =>
    intro j v h
    simp only [firstMin] at h
    rcases hxs : firstMin xs with _ | ⟨j', v'⟩
    · rw [hxs] at h
      simp only [Option.some.injEq, Prod.mk.injEq] at h
      obtain ⟨hj, hv⟩ := h
      subst hj; subst hv
      have hnil : xs = [] := by
        cases xs with
        | nil => rfl
        | cons y ys => exact absurd hxs (firstMin_ne_none y ys)
      subst hnil
      refine ⟨rfl, ?_, ?_⟩
      · intro y hy
        simp at hy
        subst hy
        exact le_refl _
      · intro i y hi
        exact absurd hi (Nat.not_lt_zero i)
    · simp only [hxs] at h
      obtain ⟨hget, hmin, hfirst⟩ := ih j' v' hxs
      by_cases hle : x ≤ v'
      · rw [if_pos hle] at h
        simp only [Option.some.injEq, Prod.mk.injEq] at h
        obtain ⟨hj, hv⟩ := h
        subst hj; subst hv
        refine ⟨rfl, ?_, ?_⟩
        · intro y hy
          rcases List.mem_cons.mp hy with hy | hy
          · subst hy; exact le_refl _
          · exact le_trans hle (hmin y hy)
        · intro i y hi
          exact absurd hi (Nat.not_lt_zero i)
      · rw [if_neg hle] at h
        simp only [Option.some.injEq, Prod.mk.injEq] at h
        obtain ⟨hj, hv⟩ := h
        subst hj; subst hv
        have hlt := lt_of_not_le hle
        refine ⟨hget, ?_, ?_⟩
        · intro y hy
          rcases List.mem_cons.mp hy with hy | hy
          · subst hy; exact le_of_lt hlt
          · exact hmin y hy
        · intro i y hi hgi
          cases i with
          | zero =>
            simp only [List.get?] at hgi
            cases hgi
            exact hlt
          | succ i' =>
            exact hfirst i' y (Nat.lt_of_succ_lt_succ hi) hgi

theorem runTrials_ok (env : Env) (losses : TaskConfigs → ℚ)
    (henv : env.trialStart = fun c => Except.ok (losses c)) :
    ∀ (m k : Nat) (cfg : TaskConfigs),
      (runTrials env m k cfg).err = none ∧
        ((runTrials env m k cfg).evals).map Prod.fst
          = (List.range' k m).map tidString := by
  intro m
  induction m with
  | zero => intro k cfg; exact ⟨rfl, rfl⟩
  | succ m ih =>
    intro k cfg
    simp only [runTrials, objectiveCall, henv, List.range'_succ, List.map_cons]
    refine ⟨(ih (k + 1) _).1, ?_⟩
    simp [(ih (k + 1) _).2]

theorem runTrials_err_of_fail (env : Env) (e : String)
    (henv : env.trialStart = fun _ => Except.error e) (m k : Nat)
    (cfg : TaskConfigs) : (runTrials env (m + 1) k cfg).err = some e := by
  simp [runTrials, objectiveCall, henv]

theorem taskCall_direct_writes (env : Env) (mid : String) (c : TaskConfigs) :
    (taskCall env mid false c).writes = [] := by
  unfold taskCall
  simp only [Bool.false_eq_true, if_false]
  rcases h1 : env.trialStart c with e | v
  · simp [h1]
  · simp only [h1]
    rcases h2 : env.updateModelState mid TrainingState.FINISHED "tid_0" with e | u
    · simp [h2]
    · simp [h2]

theorem taskCall_direct_updates_ok (env : Env) (mid : String) (c : TaskConfigs)
    (h : (taskCall env mid false c).outcome = Except.ok ()) :
    (taskCall env mid false c).updates
      = [(mid, TrainingState.FINISHED, "tid_0")] := by
  unfold taskCall at h ⊢
  simp only [Bool.false_eq_true, if_false] at h ⊢
  rcases h1 : env.trialStart c with e | v
  · simp [h1] at h
  · simp only [h1] at h ⊢
    rcases h2 : env.updateModelState mid TrainingState.FINISHED "tid_0" with e | u
    · simp [h2] at h
    · simp [h2]

/-- Claim C2: with tuning disabled and the invocation returning normally,
exactly one TrialRegistry entry has been created — the current pid under
`(model_id, "tid_0")` — and the coordinator client was invoked exactly
once, with `(model_id, FINISHED, "tid_0")`. -/
theorem C2_direct_registry_and_report (env : Env) (cfg : TaskConfigs)
    (htun : cfg.tuning = false)
    (hnorm : (fullRun env cfg).outcome = Except.ok ()) :
    (fullRun env cfg).writes = [(cfg.model_id, TrialKey.str "tid_0", env.pid)] ∧
    (fullRun env cfg).updates
      = [(cfg.model_id, TrainingState.FINISHED, "tid_0")] := by
  have hini : taskInit env cfg
      = ⟨{ cfg with trial_id := some "tid_0" },
         [(cfg.model_id, TrialKey.str "tid_0", env.pid)]⟩ := by
    simp [taskInit, htun]
  have hout : (taskCall env cfg.model_id false (taskInit env cfg).cfg).outcome
      = Except.ok () := by
    have hoc : (fullRun env cfg).outcome
        = (taskCall env cfg.model_id cfg.tuning (taskInit env cfg).cfg).outcome :=
      rfl
    rw [hoc, htun] at hnorm
    exact hnorm
  constructor
  · have hwr : (fullRun env cfg).writes
        = (taskInit env cfg).writes
          ++ (taskCall env cfg.model_id cfg.tuning (taskInit env cfg).cfg).writes :=
      rfl
    rw [hwr, htun, taskCall_direct_writes, hini]
    simp
  · have hup : (fullRun env cfg).updates
        = (taskCall env cfg.model_id cfg.tuning (taskInit env cfg).cfg).updates :=
      rfl
    rw [hup, htun, taskCall_direct_updates_ok env cfg.model_id _ hout]

/-- Witness for C2 at a concrete succeeding environment. -/
theorem C2_direct_registry_and_report_witness :
    (fullRun envOk cfgDirect).writes
      = [(cfgDirect.model_id, TrialKey.str "tid_0", envOk.pid)] ∧
    (fullRun envOk cfgDirect).updates
      = [(cfgDirect.model_id, TrainingState.FINISHED, "tid_0")] :=
  C2_direct_registry_and_report envOk cfgDirect rfl rfl

/-- Claim C3 counterexample: invoking the trial objective with sequence
numbers 0 and 1 creates TrialRegistry entries keyed by the raw integers
0 and 1, not by the strings `"tid_0"` and `"tid_1"` as the claim states. -/
theorem C3_counterexample :
    ((objectiveCall envOk cfgTuning 0).writes
        ++ (objectiveCall envOk (objectiveCall envOk cfgTuning 0).cfg 1).writes).map
      (fun w => w.2.1) = [TrialKey.num 0, TrialKey.num 1] ∧
    ¬ ((objectiveCall envOk cfgTuning 0).writes
        ++ (objectiveCall envOk (objectiveCall envOk cfgTuning 0).cfg 1).writes).map
      (fun w => w.2.1) = [TrialKey.str "tid_0", TrialKey.str "tid_1"] := by
  constructor
  · rfl
  · decide

/-- Claim C3 as amended: the two invocations create two distinct
registry entries under the task's model identifier, keyed by the raw
sequence numbers 0 and 1 (never colliding), while the `trial_id` field
written into the TaskConfig is `"tid_0"` resp. `"tid_1"`. -/
theorem C3_amended_int_keys (env : Env) (cfg : TaskConfigs) :
    (objectiveCall env cfg 0).writes
      = [(cfg.model_id, TrialKey.num 0, env.pid)] ∧
    (objectiveCall env (objectiveCall env cfg 0).cfg 1).writes
      = [(cfg.model_id, TrialKey.num 1, env.pid)] ∧
    TrialKey.num 0 ≠ TrialKey.num 1 ∧
    (objectiveCall env cfg 0).cfg.trial_id = some "tid_0" ∧
    (objectiveCall env (objectiveCall env cfg 0).cfg 1).cfg.trial_id
      = some "tid_1" := by
  refine ⟨rfl, rfl, by decide, rfl, rfl⟩

/-- Claim C4: if the trial executor's `start` raises, the coordinator
client is never invoked, exactly one warning line is logged, and the
exception propagates unchanged to the caller — in either mode. -/
theorem C4_executor_raises (env : Env) (cfg : TaskConfigs) (e : String)
    (henv : env.trialStart = fun _ => Except.error e) :
    (fullRun env cfg).updates = [] ∧ (fullRun env cfg).warns = [e] ∧
      (fullRun env cfg).outcome = Except.error e := by
  have hup : (fullRun env cfg).updates
      = (taskCall env cfg.model_id cfg.tuning (taskInit env cfg).cfg).updates :=
    rfl
  have hwa : (fullRun env cfg).warns
      = (taskCall env cfg.model_id cfg.tuning (taskInit env cfg).cfg).warns :=
    rfl
  have hoc : (fullRun env cfg).outcome
      = (taskCall env cfg.model_id cfg.tuning (taskInit env cfg).cfg).outcome :=
    rfl
  rw [hup, hwa, hoc]
  cases htun : cfg.tuning with
  | true =>
    have hini : (taskInit env cfg).cfg = cfg := by
      simp [taskInit, htun]
    rw [hini]
    have herr : (runTrials env 20 0 cfg).err = some e :=
      runTrials_err_of_fail env e henv 19 0 cfg
    unfold taskCall
    simp [herr]
  | false =>
    unfold taskCall
    simp [henv]

/-- Witness for C4 at a concrete always-raising executor (direct mode). -/
theorem C4_executor_raises_witness :
    (fullRun envFail cfgDirect).updates = [] ∧
    (fullRun envFail cfgDirect).warns = ["boom"] ∧
    (fullRun envFail cfgDirect).outcome = Except.error "boom" :=
  C4_executor_raises envFail cfgDirect "boom" rfl

/-- Claim C5: every exception raised during the invocation is logged
exactly once, at warning severity, with the error itself, and the
invocation re-raises exactly that exception; a normal return logs
nothing. -/
theorem C5_log_once_and_reraise (env : Env) (cfg : TaskConfigs) :
    (fullRun env cfg).warns =
      (match (fullRun env cfg).outcome with
        | Except.error e => [e]
        | Except.ok _ => []) :=
  taskCall_warns_outcome env cfg.model_id cfg.tuning (taskInit env cfg).cfg

/-- Claim C6 counterexample: with tuning disabled, already at
construction time (before any invocation) the `trial_id` field has been
assigned `"tid_0"` and a TrialRegistry entry has been written — refuting
the claim that neither mutation has occurred before the invocation. -/
theorem C6_counterexample :
    (taskInit envOk cfgDirect).cfg.trial_id = some "tid_0" ∧
    ¬ (taskInit envOk cfgDirect).writes = [] := by
  constructor
  · rfl
  · decide

/-- Claim C6 as amended: with tuning disabled it is the construction
that assigns `"tid_0"` into the TaskConfig and records the current pid
into the TrialRegistry; the invocation performs no further registry
write. -/
theorem C6_construction_mutations (env : Env) (cfg : TaskConfigs)
    (htun : cfg.tuning = false) :
    (taskInit env cfg).cfg.trial_id = some "tid_0" ∧
    (taskInit env cfg).writes
      = [(cfg.model_id, TrialKey.str "tid_0", env.pid)] ∧
    (taskCall env cfg.model_id cfg.tuning (taskInit env cfg).cfg).writes
      = [] := by
  have hini : taskInit env cfg
      = ⟨{ cfg with trial_id := some "tid_0" },
         [(cfg.model_id, TrialKey.str "tid_0", env.pid)]⟩ := by
    simp [taskInit, htun]
  refine ⟨by rw [hini], by rw [hini], ?_⟩
  rw [htun]
  exact taskCall_direct_writes env cfg.model_id _

/-- Witness for the amended C6 at a concrete environment. -/
theorem C6_construction_mutations_witness :
    (taskInit envOk cfgDirect).cfg.trial_id = some "tid_0" ∧
    (taskInit envOk cfgDirect).writes
      = [(cfgDirect.model_id, TrialKey.str "tid_0", envOk.pid)] ∧
    (taskCall envOk cfgDirect.model_id cfgDirect.tuning
        (taskInit envOk cfgDirect).cfg).writes = [] :=
  C6_construction_mutations envOk cfgDirect rfl

/-- Claim C7: every coordinator-client invocation made by the scheduler,
in either mode and regardless of outcome, carries the state `FINISHED`. -/
theorem C7_only_finished (env : Env) (cfg : TaskConfigs) :
    ((fullRun env cfg).updates).all
      (fun u => decide (u.2.1 = TrainingState.FINISHED)) = true :=
  taskCall_updates_finished env cfg.model_id cfg.tuning (taskInit env cfg).cfg

/-- Claim C8: the learning rate the trial objective writes into the
TaskConfig is exactly the sampled value, hence lies in the closed range
`[1e-7, 1e-1]` whenever the sampling primitive respects the bounds it is
asked for. -/
theorem C8_lr_in_range (env : Env) (cfg : TaskConfigs) (k : Nat)
    (h1 : 1 / 10 ^ 7 ≤ env.sample k) (h2 : env.sample k ≤ 1 / 10) :
    ∃ v : ℚ, (objectiveCall env cfg k).cfg.learning_rate = some v ∧
      1 / 10 ^ 7 ≤ v ∧ v ≤ 1 / 10 :=
  ⟨env.sample k, rfl, h1, h2⟩

/-- Witness for C8 at a concrete in-bounds sampler. -/
theorem C8_lr_in_range_witness :
    ∃ v : ℚ, (objectiveCall envOk cfgTuning 0).cfg.learning_rate = some v ∧
      1 / 10 ^ 7 ≤ v ∧ v ≤ 1 / 10 :=
  C8_lr_in_range envOk cfgTuning 0 (by norm_num [envOk]) (by norm_num [envOk])

/-- Claim C9: during a single tuning run every TrialRegistry entry
written records the same process identifier, the pid of the one process
executing the orchestrator. -/
theorem C9_same_pid_tuning (env : Env) (cfg : TaskConfigs)
    (htun : cfg.tuning = true) :
    ((fullRun env cfg).writes).all
      (fun w => decide (w.2.2 = env.pid)) = true := by
  unfold fullRun taskInit
  simp only [htun, if_true, List.nil_append]
  rw [taskCall_writes_tuning]
  exact runTrials_pid_all env 20 0 cfg

/-- Witness for C9 at a concrete tuning-mode run. -/
theorem C9_same_pid_tuning_witness :
    ((fullRun envOk cfgTuning).writes).all
      (fun w => decide (w.2.2 = envOk.pid)) = true :=
  C9_same_pid_tuning envOk cfgTuning rfl

/-- Claim C1: with tuning enabled and a never-raising trial executor,
the search driver performs exactly 20 evaluations, each producing a
distinct TrialIdentifier `tid_<k>`, and the coordinator client is
invoked exactly once, with the model id, `FINISHED`, and the identifier
of the trial with minimum loss (first-seen wins on exact ties). -/
theorem C1_tuning_budget_and_best (env : Env) (cfg : TaskConfigs)
    (losses : TaskConfigs → ℚ) (htun : cfg.tuning = true)
    (henv : env.trialStart = fun c => Except.ok (losses c)) :
    C1Prop env cfg := by
  obtain ⟨herr, hfst⟩ := runTrials_ok env losses henv 20 0 cfg
  have hfst20 : ((runTrials env 20 0 cfg).evals).map Prod.fst
      = (List.range 20).map tidString := by
    rw [hfst, List.range_eq_range']
  have hlen : ((runTrials env 20 0 cfg).evals).length = 20 := by
    have hl := congrArg List.length hfst
    simpa using hl
  have hnodup : (((runTrials env 20 0 cfg).evals).map Prod.fst).Nodup := by
    rw [hfst20]
    decide
  have hne : ((runTrials env 20 0 cfg).evals).map Prod.snd ≠ [] := by
    intro hcon
    have hl := congrArg List.length hcon
    simp [hlen] at hl
  obtain ⟨⟨j, v⟩, hfm⟩ : ∃ jv,
      firstMin (((runTrials env 20 0 cfg).evals).map Prod.snd) = some jv := by
    cases hl : ((runTrials env 20 0 cfg).evals).map Prod.snd with
    | nil => exact absurd hl hne
    | cons y ys =>
      exact Option.ne_none_iff_exists'.mp (firstMin_ne_none y ys)
  obtain ⟨hget, hmin, hfirst⟩ := firstMin_spec _ j v hfm
  have hupd : (fullRun env cfg).updates
      = [(cfg.model_id, TrainingState.FINISHED, tidString j)] := by
    have hini : (taskInit env cfg).cfg = cfg := by
      simp [taskInit, htun]
    have hup : (fullRun env cfg).updates
        = (taskCall env cfg.model_id cfg.tuning (taskInit env cfg).cfg).updates :=
      rfl
    rw [hup, htun, hini]
    unfold taskCall
    simp only [if_true, herr, hfm]
    rcases hu : env.updateModelState cfg.model_id TrainingState.FINISHED
        (tidString j) with e | u
    · simp [hu]
    · simp [hu]
  exact ⟨hlen, hfst20, hnodup, j, v, hfm, hget, hmin, hfirst, hupd⟩

/-- Witness for C1 at a concrete tuning-mode run with a constant-loss
executor. -/
theorem C1_tuning_budget_and_best_witness :
    cfgTuning.tuning = true ∧ C1Prop envOk cfgTuning :=
  ⟨rfl, C1_tuning_budget_and_best envOk cfgTuning (fun _ => 1) rfl rfl⟩

end IoTDB

/-- Claim C10: `UDFConfigurations.check` raises
`UDFException("UDF output_data_type is not set.")` exactly when the
stored output data type is `None`, returns normally otherwise, and in
both cases leaves the configuration unchanged, so a subsequent
`get_output_data_type` returns the same stored value. -/
theorem C10_check_iff (τ : Type) (c : UDF.UDFConfigurations τ) :
    ((UDF.check c).1
        = Except.error ⟨"UDF output_data_type is not set."⟩ ↔
      c.output_data_type = none) ∧
    ((UDF.check c).1 = Except.ok () ↔ c.output_data_type ≠ none) ∧
    UDF.get_output_data_type (UDF.check c).2
      = UDF.get_output_data_type c := by
  obtain ⟨od⟩ := c
  cases od <;> simp [UDF.check, UDF.get_output_data_type]
